import Mathlib

/-!
Verification of the pdf-ops PDF manipulation engine.

This file gives a shallow embedding of the page-level operations of the
repository (src/merge.py, src/edit.py, src/security.py) and proves or
refutes the specified properties about them.

Conventions of the embedding:
* A document is its ordered list of pages; a page is identified by its
  0-based index in the source document (or, for crop, by its page box).
* Machine floats of the source are modelled as rationals.
* Filesystem effects are made explicit in the outcome types: each
  operation records which files and directories it has written.
* Exceptions caught at the operation boundary become explicit error
  constructors of the outcome types.
-/

namespace PdfOps

/-! ### Python string and integer primitives

These model the exact Python constructs the source uses:
`str.strip`, `str.split(sep)`, `int(...)`, and `range(a, b)`.
`int(...)` is modelled on its core grammar (optional surrounding
whitespace, optional sign, a nonempty digit run); digit-group
underscores are not modelled, as no behavior of interest involves them.
-/

/-- ASCII whitespace, as stripped by `str.strip()`. -/
def is_space (c : Char) : Bool :=
  c = ' ' || c = '\t' || c = '\n' || c = '\r'

/-- `str.strip()` on a character list: drop whitespace from both ends. -/
def trim_chars (cs : List Char) : List Char :=
  ((cs.dropWhile is_space).reverse.dropWhile is_space).reverse

/-- `str.split(sep)` for a one-character separator: splits at every
occurrence, keeping empty pieces, and yields `[[]]` on the empty string. -/
def split_on_char (sep : Char) : List Char → List (List Char)
  | [] => [[]]
  | c :: cs =>
    match split_on_char sep cs with
    | [] => if c = sep then [[], [c]] else [[c]]
    | r :: rs => if c = sep then [] :: r :: rs else (c :: r) :: rs

/-- Value of a nonempty run of decimal digits; `none` otherwise. -/
def digits_val : List Char → Option Nat
  | [] => none
  | cs =>
    if cs.all Char.isDigit then
      some (cs.foldl (fun acc c => 10 * acc + (c.toNat - '0'.toNat)) 0)
    else none

/-- Python `int(...)` on a character list: strip whitespace, optional
sign, digits. `none` models the `ValueError` raised on anything else. -/
def python_int_chars (cs : List Char) : Option Int :=
  match trim_chars cs with
  | '-' :: rest => (digits_val rest).map (fun n => -(n : Int))
  | '+' :: rest => (digits_val rest).map (fun n => (n : Int))
  | rest => (digits_val rest).map (fun n => (n : Int))

/-- Python `int(...)` on a string. -/
def python_int (s : String) : Option Int :=
  python_int_chars s.data

/-- Python `range(a, b)` over integers: `[a, a+1, ..., b-1]`, empty when
`b ≤ a`. -/
def py_range (a b : Int) : List Int :=
  (List.range (b - a).toNat).map (fun i => a + (i : Int))

/-- Python `range(a, b)` over naturals. -/
def py_range_nat (a b : Nat) : List Nat :=
  (List.range (b - a)).map (fun i => a + i)

/-! ### Page range parsing (src/merge.py `_extract_pages`, lines 612-624)

The source splits the range string on commas; each stripped part that
contains a dash is split on the dash into exactly a start and an end and
contributes `range(start, end + 1)`; any other part contributes the
single number `int(part)`. Any `ValueError` (malformed token) aborts the
parse with the message "Invalid page range format".
-/

/-- One comma-separated token of the range string: the (1-based) page
numbers it contributes, or `none` on a `ValueError`. -/
def parse_token (cs : List Char) : Option (List Int) :=
  let t := trim_chars cs
  if t.contains '-' then
    match split_on_char '-' t with
    | [a, b] => do
      let s ← python_int_chars a
      let e ← python_int_chars b
      pure (py_range s (e + 1))
    | _ => none
  else
    (python_int_chars t).map (fun n => [n])

/-- The whole range-string parse: concatenation of the pages contributed
by each comma-separated token, in token order, duplicates kept. -/
def parse_page_range (s : String) : Option (List Int) :=
  ((split_on_char ',' s.data).mapM parse_token).map List.flatten

/-! ### Extract (src/merge.py `_extract_pages`, lines 606-680) -/

/-- Outcome of the extract operation.  Only `output` writes a file; the
other constructors reset progress and return with a message. -/
inductive ExtractResult where
  /-- "Invalid page range format": a token failed to parse. -/
  | invalid_format : ExtractResult
  /-- "No valid pages in the specified range": the in-bounds page list
  is empty. -/
  | no_valid_pages : ExtractResult
  /-- A file was written containing exactly these source pages, by
  0-based index, in this order. -/
  | output : List Nat → ExtractResult
deriving DecidableEq, Repr

/-- `_extract_pages`: parse the range, drop the page numbers outside
`1 ≤ p ≤ total_pages`, fail if none remain, otherwise write the
remaining pages (converted to 0-based indices) in list order. -/
def extract_pages (range_str : String) (total_pages : Nat) : ExtractResult :=
  match parse_page_range range_str with
  | none => .invalid_format
  | some nums =>
    let page_numbers := nums.filter (fun p => decide (1 ≤ p ∧ p ≤ (total_pages : Int)))
    if page_numbers.isEmpty then .no_valid_pages
    else .output (page_numbers.map (fun p => (p - 1).toNat))

/-! ### Split (src/merge.py `_split_pdf`, lines 470-580) -/

/-- The three split methods of the dropdown. -/
inductive SplitMethod where
  | by_page_count
  | individual_pages
  | by_bookmarks
deriving DecidableEq, Repr

/-- Terminal status of the split operation. -/
inductive SplitStatus where
  /-- "PDF has only one page, nothing to split" (warning). -/
  | one_page_warning
  /-- "Please enter a valid number of pages per file" (error). -/
  | invalid_pages_per_file
  /-- "Splitting by bookmarks requires additional PDF analysis tools"
  (informational; the unsupported-operation report). -/
  | bookmarks_unsupported
  | success
deriving DecidableEq, Repr

/-- Observable outcome of `_split_pdf`: whether the output directory was
created, the page contents (0-based indices) of each file written, in
creation order, and the terminal status. -/
structure SplitOutcome where
  dir_created : Bool
  files : List (List Nat)
  status : SplitStatus
deriving DecidableEq, Repr

/-- `(total_pages + pages_per_file - 1) // pages_per_file` from the
source: the number of output files for split-by-count. -/
def ceil_div (total n : Nat) : Nat := (total + n - 1) / n

/-- `_split_pdf`: refuse documents of fewer than 2 pages before any
filesystem effect; otherwise create the output directory, then dispatch
on the split method.  Split-by-count validates `int(pages_per_file) ≥ 1`
only after the directory exists; chunk `i` covers source pages
`range(i*n, min((i+1)*n, total))`.  Split-by-bookmarks reports
unsupported after the directory exists. -/
def split_pdf (total_pages : Nat) (split_method : SplitMethod)
    (pages_per_file : String) : SplitOutcome :=
  if total_pages < 2 then
    ⟨false, [], .one_page_warning⟩
  else
    match split_method with
    | .individual_pages =>
      ⟨true, (List.range total_pages).map (fun i => [i]), .success⟩
    | .by_page_count =>
      match python_int pages_per_file with
      | none => ⟨true, [], .invalid_pages_per_file⟩
      | some n =>
        if n < 1 then ⟨true, [], .invalid_pages_per_file⟩
        else
          let k := n.toNat
          let num_files := ceil_div total_pages k
          ⟨true,
           (List.range num_files).map
             (fun i => py_range_nat (i * k) (min ((i + 1) * k) total_pages)),
           .success⟩
    | .by_bookmarks => ⟨true, [], .bookmarks_unsupported⟩

/-! ### Merge (src/merge.py `_merge_pdfs`, lines 406-449)

A source is `none` when opening or appending it raises (unavailable or
corrupt file), otherwise `some` of its page list.  The merged output is
written only after every source has been appended, so any failure
leaves the filesystem unchanged.
-/

/-- Outcome of the merge operation. -/
inductive MergeOutcome where
  /-- An exception was caught; no output file exists. -/
  | error
  /-- The output file was written with exactly these pages. -/
  | written : List Nat → MergeOutcome
deriving DecidableEq, Repr

/-- The append loop of `_merge_pdfs`: stops at the first failing source;
on success the accumulated page sequence is the concatenation in source
order. -/
def append_all : List (Option (List Nat)) → Option (List Nat)
  | [] => some []
  | none :: _ => none
  | some d :: rest => (append_all rest).map (fun ps => d ++ ps)

/-- `_merge_pdfs` on the ordered source list. -/
def merge_pdfs (srcs : List (Option (List Nat))) : MergeOutcome :=
  match append_all srcs with
  | none => .error
  | some ps => .written ps

/-! ### Compress (src/merge.py `_compress_pdf`, lines 701-778) -/

/-- The reported reduction percentage:
`(original_size - new_size) / original_size * 100 if original_size > 0
else 0`, on the actual byte sizes of the input and output files. -/
def reduction_percent (original_size new_size : Nat) : ℚ :=
  if 0 < original_size then
    (((original_size : ℚ) - (new_size : ℚ)) / (original_size : ℚ)) * 100
  else 0

/-- The arguments the source passes to `doc.save` when compressing: the
document plus fixed options `garbage=4, deflate=True, clean=True`.
These determine the bytes of the output file. -/
structure SaveArgs where
  garbage : Nat
  deflate : Bool
  clean : Bool
  doc : List Nat
deriving DecidableEq, Repr

/-- `_compress_pdf` reads `compression_level` and `image_quality` from
the sliders but its save call passes only the fixed options, so the
output is a function of the document alone. -/
def compress_save (doc : List Nat) (compression_level image_quality : Int) :
    SaveArgs :=
  { garbage := 4, deflate := true, clean := true, doc := doc }

/-! ### Crop (src/edit.py `crop_pages`, lines 716-805)

A page box is a rectangle with rational coordinates.  PyMuPDF raises
`ValueError` from `Page.set_cropbox` when the requested box is empty
(width or height not positive) or not contained in the page box; the
source catches this at the operation boundary, so the whole operation
fails and no output file is written.
-/

/-- A PyMuPDF rectangle. -/
structure Rect where
  x0 : ℚ
  y0 : ℚ
  x1 : ℚ
  y1 : ℚ
deriving DecidableEq, Repr

/-- `rect.width`. -/
def Rect.width (r : Rect) : ℚ := r.x1 - r.x0

/-- `rect.height`. -/
def Rect.height (r : Rect) : ℚ := r.y1 - r.y0

/-- `Rect.is_empty` of PyMuPDF: width or height not positive. -/
def Rect.empty_rect (r : Rect) : Prop := r.x1 ≤ r.x0 ∨ r.y1 ≤ r.y0

instance (r : Rect) : Decidable r.empty_rect := by
  unfold Rect.empty_rect; infer_instance

/-- Containment of one rectangle in another. -/
def Rect.inside (r mb : Rect) : Prop :=
  mb.x0 ≤ r.x0 ∧ mb.y0 ≤ r.y0 ∧ r.x1 ≤ mb.x1 ∧ r.y1 ≤ mb.y1

instance (r mb : Rect) : Decidable (r.inside mb) := by
  unfold Rect.inside; infer_instance

/-- The crop box the source computes for one page:
`fitz.Rect(x0 + width*left, y0 + height*top, x1 - width*right,
y1 - height*bottom)`. -/
def crop_box (rect : Rect) (left right top bottom : ℚ) : Rect :=
  ⟨rect.x0 + rect.width * left,
   rect.y0 + rect.height * top,
   rect.x1 - rect.width * right,
   rect.y1 - rect.height * bottom⟩

/-- PyMuPDF `Page.set_cropbox`: accepts the new box only when it is
nonempty and contained in the page box; `none` models the raised
`ValueError`. -/
def set_cropbox (page_rect new_rect : Rect) : Option Rect :=
  if new_rect.empty_rect then none
  else if new_rect.inside page_rect then some new_rect
  else none

/-- Outcome of the crop operation. -/
inductive CropOutcome where
  /-- An exception was caught; no output file exists. -/
  | error
  /-- The output file was written; these are the visible boxes of its
  pages, in order. -/
  | written : List Rect → CropOutcome
deriving DecidableEq, Repr

/-- The page loop of `crop_pages` over the selected pages (given by
their boxes): the first `set_cropbox` failure aborts the whole
operation before the output is saved. -/
def crop_pages : List Rect → ℚ → ℚ → ℚ → ℚ → CropOutcome
  | [], _, _, _, _ => .written []
  | pg :: rest, left, right, top, bottom =>
    match set_cropbox pg (crop_box pg left right top bottom) with
    | none => .error
    | some pg2 =>
      match crop_pages rest left right top bottom with
      | .error => .error
      | .written rest2 => .written (pg2 :: rest2)

/-! ### Security (src/security.py `encrypt_pdf` lines 202-274,
`decrypt_pdf` lines 276-331)

The PyPDF2 encryption layer is modelled symbolically: an encrypted
document remembers its password (the source passes the same password as
user and owner password); `reader.decrypt` succeeds exactly on that
password.  Permission flags are carried through unchanged by both
operations and are not modelled.  In both operations the output file is
written only after the page-copy loop, so every failure branch leaves
the filesystem unchanged.
-/

/-- A document as the security engine sees it: its pages and its
encryption state. -/
structure PdfDoc where
  pages : List Nat
  encryption : Option String
deriving DecidableEq, Repr

/-- Outcome of a security operation. -/
inductive SecOutcome where
  /-- "PDF is already encrypted" (warning); no file written. -/
  | already_encrypted
  /-- "PDF is not encrypted" (warning); no file written. -/
  | not_encrypted
  /-- "Incorrect password" (error); no file written. -/
  | incorrect_password
  /-- The output file was written with this document. -/
  | written : PdfDoc → SecOutcome
deriving DecidableEq, Repr

/-- `encrypt_pdf`: refuse an already-encrypted source, otherwise copy
all pages and write them encrypted under the given password. -/
def encrypt_pdf (doc : PdfDoc) (password : String) : SecOutcome :=
  match doc.encryption with
  | some _ => .already_encrypted
  | none => .written ⟨doc.pages, some password⟩

/-- `decrypt_pdf`: refuse an unencrypted source; authenticate with the
given password; on success copy all pages and write them unencrypted. -/
def decrypt_pdf (doc : PdfDoc) (password : String) : SecOutcome :=
  match doc.encryption with
  | none => .not_encrypted
  | some pwd =>
    if password = pwd then .written ⟨doc.pages, none⟩
    else .incorrect_password

end PdfOps

namespace PdfOps

/-! ## Helper lemmas -/

/-- Elements of an extract output are in-bounds 0-based indices. -/
theorem extract_output_mem_lt (nums : List Int) (total : Nat) (p : Nat)
    (hp : p ∈ (nums.filter (fun p => decide (1 ≤ p ∧ p ≤ (total : Int)))).map
      (fun p => (p - 1).toNat)) : p < total := by
  rcases List.mem_map.mp hp with ⟨q, hq, rfl⟩
  rw [List.mem_filter, decide_eq_true_eq] at hq
  omega

/-- The append loop succeeds on an all-good source list and produces the
concatenation. -/
theorem append_all_map_some (docs : List (List Nat)) :
    append_all (docs.map some) = some docs.flatten := by
  induction docs with
  | nil => rfl
  | cons d rest ih => simp [append_all, ih]

/-- The append loop fails whenever some source fails. -/
theorem append_all_none_of_mem (srcs : List (Option (List Nat)))
    (h : none ∈ srcs) : append_all srcs = none := by
  induction srcs with
  | nil => cases h
  | cons s rest ih =>
    cases s with
    | none => rfl
    | some d =>
      rcases List.mem_cons.mp h with h1 | h1
      · cases h1
      · simp [append_all, ih h1]

/-- Concatenating two adjacent Python ranges. -/
theorem py_range_nat_append (a b c : Nat) (hab : a ≤ b) (hbc : b ≤ c) :
    py_range_nat a b ++ py_range_nat b c = py_range_nat a c := by
  unfold py_range_nat
  have h1 : c - a = (b - a) + (c - b) := by omega
  rw [h1, List.range_add, List.map_append, List.map_map]
  congr 1
  have h2 : ((fun i => a + i) ∘ fun i => (b - a) + i) = (fun i => b + i) := by
    funext i
    simp only [Function.comp_apply]
    omega
  rw [h2]

/-- A sequence of consecutive Python ranges flattens to one range. -/
theorem flatten_consecutive_ranges (g : Nat → Nat) (mono : ∀ i, g i ≤ g (i + 1))
    (q : Nat) :
    ((List.range q).map (fun i => py_range_nat (g i) (g (i + 1)))).flatten
      = py_range_nat (g 0) (g q) := by
  induction q with
  | zero => simp [py_range_nat]
  | succ q ih =>
    rw [List.range_succ, List.map_append, List.flatten_append]
    simp only [List.map_cons, List.map_nil, List.flatten_cons, List.flatten_nil,
      List.append_nil]
    rw [ih]
    exact py_range_nat_append _ _ _ (monotone_nat_of_le_succ mono (Nat.zero_le q))
      (mono q)

/-- `range(0, m)` is just the first `m` naturals. -/
theorem py_range_nat_zero (m : Nat) : py_range_nat 0 m = List.range m := by
  simp [py_range_nat]

/-- The two facts about the chunk count `⌈m / k⌉` the split proof needs:
all `m` pages fit in the chunks, and the last chunk is nonempty. -/
theorem ceil_div_facts (m k : Nat) (hk : 0 < k) (hm : 0 < m) :
    m ≤ ceil_div m k * k ∧ (ceil_div m k - 1) * k < m := by
  unfold ceil_div
  have hd := Nat.div_add_mod (m + k - 1) k
  have hr : (m + k - 1) % k < k := Nat.mod_lt _ hk
  constructor
  · rw [Nat.mul_comm]
    omega
  · rw [Nat.sub_mul, Nat.one_mul, Nat.mul_comm]
    omega

/-! ## Claims about extract and its range parse (C1, C2) -/

/-- C1, counterexample: on a 5-page document, `extract("1-3,2-4")` keeps
the pages in token-resolution order with duplicates, so the output is
`[0, 1, 2, 1, 2, 3]`, not the claimed unique ascending `[0, 1, 2, 3]`:
overlapping range tokens do duplicate pages. -/
theorem extract_overlap_duplicates_pages :
    extract_pages "1-3,2-4" 5 = .output [0, 1, 2, 1, 2, 3] ∧
    ¬ ([0, 1, 2, 1, 2, 3] : List Nat).Nodup ∧
    ([0, 1, 2, 1, 2, 3] : List Nat) ≠ [0, 1, 2, 3] :=
  ⟨rfl, by decide, by decide⟩

/-- C1, amended: every successful extract writes a nonempty document
whose pages are exactly the parsed page numbers that lie in bounds,
converted to 0-based indices, in token-resolution order with
multiplicities kept (overlapping tokens duplicate pages); every output
index is below the page count. -/
theorem extract_output_characterization (range_str : String) (total : Nat)
    (ps : List Nat) (h : extract_pages range_str total = .output ps) :
    ps ≠ [] ∧ (∀ p ∈ ps, p < total) ∧
    ∃ nums, parse_page_range range_str = some nums ∧
      ps = (nums.filter (fun p => decide (1 ≤ p ∧ p ≤ (total : Int)))).map
        (fun p => (p - 1).toNat) := by
  cases hpr : parse_page_range range_str with
  | none =>
    simp only [extract_pages, hpr] at h
    cases h
  | some nums =>
    simp only [extract_pages, hpr] at h
    by_cases he : (nums.filter (fun p => decide (1 ≤ p ∧ p ≤ (total : Int)))).isEmpty
    · rw [if_pos he] at h; cases h
    · rw [if_neg he] at h
      injection h with h
      subst h
      refine ⟨?_, ?_, nums, rfl, rfl⟩
      · intro hnil
        rw [List.map_eq_nil_iff] at hnil
        rw [hnil] at he
        exact he rfl
      · intro p hp
        exact extract_output_mem_lt nums total p hp

/-- C1, amended, witness at the example input. -/
theorem extract_output_characterization_witness :
    ([0, 1, 2, 1, 2, 3] : List Nat) ≠ [] ∧
    (∀ p ∈ ([0, 1, 2, 1, 2, 3] : List Nat), p < 5) ∧
    ∃ nums, parse_page_range "1-3,2-4" = some nums ∧
      ([0, 1, 2, 1, 2, 3] : List Nat)
        = (nums.filter (fun p => decide (1 ≤ p ∧ p ≤ ((5 : Nat) : Int)))).map
            (fun p => (p - 1).toNat) :=
  extract_output_characterization "1-3,2-4" 5 [0, 1, 2, 1, 2, 3] rfl

/-- C2, counterexample: resolved page numbers outside `1 ≤ p ≤ total`
are silently dropped, not rejected: `"0-7"` on a 5-page document
succeeds with the out-of-bounds pages 0, 6, 7 clamped away, and `"1,0"`
succeeds after dropping the invalid page 0. -/
theorem extract_out_of_bounds_silently_dropped :
    extract_pages "0-7" 5 = .output [0, 1, 2, 3, 4] ∧
    extract_pages "1,0" 5 = .output [0] :=
  ⟨rfl, rfl⟩

/-- C2, amended: non-numeric or malformed tokens fail the parse (the
"Invalid page range format" error), and the parse error occurs exactly
when the token parse fails; reversed ranges resolve to no pages and
out-of-bounds pages are silently dropped, so `"0"` and `"3-1"` fail
only because their filtered page list is empty, while `""` is a parse
failure.  No failure is raised for an out-of-bounds page as long as
some in-bounds page remains. -/
theorem extract_validation_behavior :
    (∀ s total, extract_pages s total = .invalid_format ↔
      parse_page_range s = none) ∧
    extract_pages "0" 5 = .no_valid_pages ∧
    extract_pages "3-1" 5 = .no_valid_pages ∧
    extract_pages "" 5 = .invalid_format ∧
    extract_pages "abc" 5 = .invalid_format ∧
    extract_pages "1-2-3" 5 = .invalid_format := by
  refine ⟨?_, rfl, rfl, rfl, rfl, rfl⟩
  intro s total
  cases hpr : parse_page_range s with
  | none => simp [extract_pages, hpr]
  | some nums =>
    simp only [extract_pages, hpr]
    constructor
    · intro h
      by_cases he : (nums.filter (fun p => decide (1 ≤ p ∧ p ≤ (total : Int)))).isEmpty
      · rw [if_pos he] at h; cases h
      · rw [if_neg he] at h; cases h
    · intro h; cases h

/-! ## Claims about split (C4, C7, C9) -/

/-- C9: a document with fewer than 2 pages is refused with the
"nothing to split" warning before any file or directory is created,
under every split method. -/
theorem split_refuses_small_documents (total : Nat) (m : SplitMethod)
    (s : String) (h : total < 2) :
    split_pdf total m s = ⟨false, [], .one_page_warning⟩ := by
  unfold split_pdf
  rw [if_pos h]

/-- C9, witness on a 1-page document. -/
theorem split_refuses_small_documents_witness :
    (1 : Nat) < 2 ∧
    split_pdf 1 .individual_pages "3" = ⟨false, [], .one_page_warning⟩ :=
  ⟨by decide, split_refuses_small_documents 1 .individual_pages "3" (by decide)⟩

/-- C4, counterexample: splitting a 2-page document by bookmarks reports
the unsupported-operation message only after the output directory has
been created, and an invalid pages-per-file value likewise fails with
the directory already created — the filesystem is not left unchanged. -/
theorem split_bookmarks_creates_directory :
    split_pdf 2 .by_bookmarks "1" = ⟨true, [], .bookmarks_unsupported⟩ ∧
    (split_pdf 2 .by_bookmarks "1").dir_created = true ∧
    (split_pdf 5 .by_page_count "0").dir_created = true :=
  ⟨rfl, rfl, rfl⟩

/-- C4, amended: on a splittable document, split by bookmarks reports
the unsupported operation and writes no output file, and an invalid
pages-per-file value fails and writes no output file, but in both cases
the output directory has already been created. -/
theorem split_failures_after_directory (total : Nat) (s : String)
    (h2 : 2 ≤ total) :
    split_pdf total .by_bookmarks s = ⟨true, [], .bookmarks_unsupported⟩ ∧
    ((python_int s = none ∨ ∃ n, python_int s = some n ∧ n < 1) →
      split_pdf total .by_page_count s = ⟨true, [], .invalid_pages_per_file⟩) := by
  have hlt : ¬ total < 2 := by omega
  constructor
  · unfold split_pdf
    rw [if_neg hlt]
  · rintro (hs | ⟨n, hs, hn⟩)
    · unfold split_pdf
      rw [if_neg hlt]
      simp only [hs]
    · unfold split_pdf
      rw [if_neg hlt]
      simp only [hs]
      rw [if_pos hn]

/-- C4, amended, witness on a 4-page document with a non-numeric
pages-per-file value. -/
theorem split_failures_after_directory_witness :
    split_pdf 4 .by_bookmarks "abc" = ⟨true, [], .bookmarks_unsupported⟩ ∧
    split_pdf 4 .by_page_count "abc" = ⟨true, [], .invalid_pages_per_file⟩ :=
  ⟨(split_failures_after_directory 4 "abc" (by decide)).1,
   (split_failures_after_directory 4 "abc" (by decide)).2 (Or.inl rfl)⟩

/-- C7, counterexample: on a 1-page document, split by count with n = 1
produces no output at all (the nothing-to-split warning fires), not the
claimed `ceil(1/1) = 1` chunk. -/
theorem split_by_count_single_page_counterexample :
    (split_pdf 1 .by_page_count "1").files.length = 0 ∧
    ceil_div 1 1 = 1 ∧
    (split_pdf 1 .by_page_count "1").files.length ≠ ceil_div 1 1 :=
  ⟨rfl, rfl, by decide⟩

/-- C7, amended: on a document of at least 2 pages and a valid
pages-per-file value n ≥ 1, split by count creates exactly
`ceil(total/n)` files in ascending chunk order, chunk i holding pages
`[i*n, min((i+1)*n, total))`, and together the chunks cover exactly the
pages `0, ..., total-1` in order. -/
theorem split_by_count_chunks (total : Nat) (s : String) (n : Int)
    (h2 : 2 ≤ total) (hs : python_int s = some n) (hn : 1 ≤ n) :
    (split_pdf total .by_page_count s).status = .success ∧
    (split_pdf total .by_page_count s).dir_created = true ∧
    (split_pdf total .by_page_count s).files
      = (List.range (ceil_div total n.toNat)).map
          (fun i => py_range_nat (i * n.toNat) (min ((i + 1) * n.toNat) total)) ∧
    (split_pdf total .by_page_count s).files.length = ceil_div total n.toNat ∧
    (split_pdf total .by_page_count s).files.flatten = List.range total := by
  have hlt : ¬ total < 2 := by omega
  have hn1 : ¬ n < 1 := by omega
  have hout : split_pdf total .by_page_count s
      = ⟨true,
         (List.range (ceil_div total n.toNat)).map
           (fun i => py_range_nat (i * n.toNat) (min ((i + 1) * n.toNat) total)),
         .success⟩ := by
    unfold split_pdf
    rw [if_neg hlt]
    simp only [hs]
    rw [if_neg hn1]
  rw [hout]
  refine ⟨rfl, rfl, rfl, by simp, ?_⟩
  set k := n.toNat with hk
  have hkpos : 0 < k := by omega
  have htot : 0 < total := by omega
  obtain ⟨hfit, hlast⟩ := ceil_div_facts total k hkpos htot
  set q := ceil_div total k with hq
  have hcongr :
      (List.range q).map (fun i => py_range_nat (i * k) (min ((i + 1) * k) total))
        = (List.range q).map
            (fun i => py_range_nat (min (i * k) total) (min ((i + 1) * k) total)) := by
    apply List.map_congr_left
    intro i hi
    have hi2 : i < q := List.mem_range.mp hi
    have hik : i * k ≤ total := by
      have ha : i ≤ q - 1 := by omega
      have hb : i * k ≤ (q - 1) * k := Nat.mul_le_mul_right k ha
      omega
    rw [Nat.min_eq_left hik]
  rw [hcongr]
  have hflat := flatten_consecutive_ranges (fun i => min (i * k) total)
      (fun i => min_le_min (Nat.mul_le_mul_right k (Nat.le_succ i)) le_rfl) q
  simp only at hflat
  rw [hflat]
  have h0 : min (0 * k) total = 0 := by simp
  have hqk : min (q * k) total = total := Nat.min_eq_right hfit
  rw [h0, hqk, py_range_nat_zero]

/-- C7, amended, witness: a 5-page document split by count 2 yields 3
files with page counts 2, 2, 1. -/
theorem split_by_count_chunks_witness :
    (split_pdf 5 .by_page_count "2").status = .success ∧
    (split_pdf 5 .by_page_count "2").dir_created = true ∧
    (split_pdf 5 .by_page_count "2").files
      = (List.range (ceil_div 5 (2 : Int).toNat)).map
          (fun i => py_range_nat (i * (2 : Int).toNat)
            (min ((i + 1) * (2 : Int).toNat) 5)) ∧
    (split_pdf 5 .by_page_count "2").files.length = ceil_div 5 (2 : Int).toNat ∧
    (split_pdf 5 .by_page_count "2").files.flatten = List.range 5 ∧
    (split_pdf 5 .by_page_count "2").files.map List.length = [2, 2, 1] := by
  have h := split_by_count_chunks 5 "2" 2 (by decide) rfl (by decide)
  exact ⟨h.1, h.2.1, h.2.2.1, h.2.2.2.1, h.2.2.2.2, rfl⟩

/-! ## Claim about merge (C6) -/

/-- C6: when every source opens and parses, the merged output is the
straight concatenation of the sources in order, with total page count
the sum of the input page counts; when any source fails, the whole
operation fails and no output file is written. -/
theorem merge_concatenation_all_or_nothing (srcs : List (Option (List Nat)))
    (_h2 : 2 ≤ srcs.length) :
    (∀ docs : List (List Nat), srcs = docs.map some →
        merge_pdfs srcs = .written docs.flatten ∧
        docs.flatten.length = (docs.map List.length).sum) ∧
    (none ∈ srcs → merge_pdfs srcs = .error) := by
  constructor
  · rintro docs rfl
    refine ⟨?_, List.length_flatten docs⟩
    unfold merge_pdfs
    rw [append_all_map_some]
  · intro hmem
    unfold merge_pdfs
    rw [append_all_none_of_mem srcs hmem]

/-- C6, witness: merging a 3-page and a 2-page document yields their
5-page concatenation; merging with an unreadable source fails. -/
theorem merge_concatenation_all_or_nothing_witness :
    merge_pdfs [some [0, 1, 2], some [0, 1]] = .written [0, 1, 2, 0, 1] ∧
    ([0, 1, 2, 0, 1] : List Nat).length = 3 + 2 ∧
    merge_pdfs [some [0], none] = .error := by
  have h1 := merge_concatenation_all_or_nothing [some [0, 1, 2], some [0, 1]]
    (by decide)
  have h2 := merge_concatenation_all_or_nothing [some [0], none] (by decide)
  exact ⟨(h1.1 [[0, 1, 2], [0, 1]] rfl).1, by decide, h2.2 (by decide)⟩


/-! ## Claim about the security round trip (C3) -/

/-- C3: encrypting a plain document with a password and decrypting with
the same password writes a document with the original page count and
content; decrypting with any other password fails with the
incorrect-password error and writes no output file. -/
theorem encrypt_decrypt_round_trip (doc : PdfDoc) (pwd wrong : String)
    (hplain : doc.encryption = none) (hwrong : wrong ≠ pwd) :
    encrypt_pdf doc pwd = .written ⟨doc.pages, some pwd⟩ ∧
    decrypt_pdf ⟨doc.pages, some pwd⟩ pwd = .written ⟨doc.pages, none⟩ ∧
    (⟨doc.pages, none⟩ : PdfDoc).pages.length = doc.pages.length ∧
    decrypt_pdf ⟨doc.pages, some pwd⟩ wrong = .incorrect_password := by
  refine ⟨?_, ?_, rfl, ?_⟩
  · simp only [encrypt_pdf, hplain]
  · simp [decrypt_pdf]
  · simp only [decrypt_pdf]
    rw [if_neg hwrong]

/-- C3, witness on a 3-page document. -/
theorem encrypt_decrypt_round_trip_witness :
    encrypt_pdf ⟨[0, 1, 2], none⟩ "secret"
      = .written ⟨[0, 1, 2], some "secret"⟩ ∧
    decrypt_pdf ⟨[0, 1, 2], some "secret"⟩ "secret"
      = .written ⟨[0, 1, 2], none⟩ ∧
    (⟨[0, 1, 2], none⟩ : PdfDoc).pages.length
      = ([0, 1, 2] : List Nat).length ∧
    decrypt_pdf ⟨[0, 1, 2], some "secret"⟩ "guess" = .incorrect_password :=
  encrypt_decrypt_round_trip ⟨[0, 1, 2], none⟩ "secret" "guess" rfl (by decide)

/-! ## Claim about crop (C5) -/

/-- Zero margins leave the crop box equal to the page box. -/
theorem crop_box_zero (pg : Rect) : crop_box pg 0 0 0 0 = pg := by
  cases pg
  simp [crop_box, Rect.width, Rect.height]

/-- Setting the crop box of a well-formed page to its own box succeeds. -/
theorem set_cropbox_self (pg : Rect) (hw : 0 < pg.width) (hh : 0 < pg.height) :
    set_cropbox pg pg = some pg := by
  simp only [Rect.width] at hw
  simp only [Rect.height] at hh
  have hne : ¬ pg.empty_rect := by
    unfold Rect.empty_rect
    push_neg
    constructor <;> linarith
  have hin : pg.inside pg := ⟨le_refl _, le_refl _, le_refl _, le_refl _⟩
  unfold set_cropbox
  rw [if_neg hne, if_pos hin]

/-- Degenerate margins make the first crop box empty, so the page loop
raises at its first page and the whole operation fails. -/
theorem crop_pages_invalid_margins (pg : Rect) (rest : List Rect)
    (l r t b : ℚ) (hw : 0 < pg.width) (hh : 0 < pg.height)
    (hsum : 1 ≤ l + r ∨ 1 ≤ t + b) :
    crop_pages (pg :: rest) l r t b = .error := by
  simp only [Rect.width] at hw
  simp only [Rect.height] at hh
  have hempty : (crop_box pg l r t b).empty_rect := by
    rcases hsum with h | h
    · left
      simp only [crop_box, Rect.width]
      nlinarith [mul_nonneg (le_of_lt hw) (show (0 : ℚ) ≤ l + r - 1 by linarith)]
    · right
      simp only [crop_box, Rect.height]
      nlinarith [mul_nonneg (le_of_lt hh) (show (0 : ℚ) ≤ t + b - 1 by linarith)]
  unfold crop_pages
  simp only [set_cropbox]
  rw [if_pos hempty]

/-- Zero margins crop every well-formed page to itself and succeed. -/
theorem crop_pages_zero_margins (pages : List Rect)
    (hboxes : ∀ pg ∈ pages, 0 < pg.width ∧ 0 < pg.height) :
    crop_pages pages 0 0 0 0 = .written pages := by
  induction pages with
  | nil => rfl
  | cons pg rest ih =>
    obtain ⟨hw, hh⟩ := hboxes pg (List.mem_cons_self pg rest)
    unfold crop_pages
    rw [crop_box_zero, set_cropbox_self pg hw hh,
      ih (fun x hx => hboxes x (List.mem_cons_of_mem pg hx))]

/-- C5: for margin fractions in [0,1) on a nonempty selection of
well-formed pages, the crop operation fails (and writes no output)
whenever left+right ≥ 1 or top+bottom ≥ 1, and with all margins zero
it succeeds with every page box unchanged.  The source has no explicit
margin validation: the failure is the `ValueError` PyMuPDF raises for
the degenerate crop box, caught at the operation boundary. -/
theorem crop_margin_validation (pages : List Rect) (l r t b : ℚ)
    (hl0 : 0 ≤ l) (hl1 : l < 1) (hr0 : 0 ≤ r) (hr1 : r < 1)
    (ht0 : 0 ≤ t) (ht1 : t < 1) (hb0 : 0 ≤ b) (hb1 : b < 1)
    (hboxes : ∀ pg ∈ pages, 0 < pg.width ∧ 0 < pg.height)
    (hne : pages ≠ []) :
    (1 ≤ l + r ∨ 1 ≤ t + b → crop_pages pages l r t b = .error) ∧
    (l = 0 → r = 0 → t = 0 → b = 0 → crop_pages pages l r t b = .written pages) := by
  constructor
  · intro hsum
    cases pages with
    | nil => exact absurd rfl hne
    | cons pg rest =>
      obtain ⟨hw, hh⟩ := hboxes pg (List.mem_cons_self pg rest)
      exact crop_pages_invalid_margins pg rest l r t b hw hh hsum
  · rintro rfl rfl rfl rfl
    exact crop_pages_zero_margins pages hboxes

/-- C5, witness on a single 100-by-200 page: margins 0.6 left and 0.6
right fail; all-zero margins leave the box unchanged. -/
theorem crop_margin_validation_witness :
    crop_pages [⟨0, 0, 100, 200⟩] (3 / 5) (3 / 5) 0 0 = .error ∧
    crop_pages [⟨0, 0, 100, 200⟩] 0 0 0 0 = .written [⟨0, 0, 100, 200⟩] := by
  have hboxes : ∀ pg ∈ ([⟨0, 0, 100, 200⟩] : List Rect),
      0 < pg.width ∧ 0 < pg.height := by
    intro pg hpg
    rw [List.mem_singleton] at hpg
    subst hpg
    constructor <;> norm_num [Rect.width, Rect.height]
  constructor
  · exact (crop_margin_validation [⟨0, 0, 100, 200⟩] (3 / 5) (3 / 5) 0 0
      (by norm_num) (by norm_num) (by norm_num) (by norm_num)
      (by norm_num) (by norm_num) (by norm_num) (by norm_num)
      hboxes (by simp)).1 (Or.inl (by norm_num))
  · exact (crop_margin_validation [⟨0, 0, 100, 200⟩] 0 0 0 0
      (by norm_num) (by norm_num) (by norm_num) (by norm_num)
      (by norm_num) (by norm_num) (by norm_num) (by norm_num)
      hboxes (by simp)).2 rfl rfl rfl rfl

/-! ## Claims about compress (C8, C10) -/

/-- C8: for a nonempty input file the reported reduction percentage is
computed exactly from the input and output byte sizes, and its sign
tracks the true delta: negative exactly when the output grew, zero
exactly when the sizes are equal, positive exactly when the output
shrank — a non-positive reduction is never clamped to zero. -/
theorem compress_reports_true_delta (original_size new_size : Nat)
    (h : 0 < original_size) :
    reduction_percent original_size new_size
      = ((original_size : ℚ) - (new_size : ℚ)) / (original_size : ℚ) * 100 ∧
    (reduction_percent original_size new_size < 0 ↔ original_size < new_size) ∧
    (reduction_percent original_size new_size = 0 ↔ original_size = new_size) ∧
    (0 < reduction_percent original_size new_size ↔ new_size < original_size) := by
  have ho : (0 : ℚ) < (original_size : ℚ) := by exact_mod_cast h
  have heq : reduction_percent original_size new_size
      = ((original_size : ℚ) - (new_size : ℚ)) / (original_size : ℚ) * 100 := by
    unfold reduction_percent
    rw [if_pos h]
  refine ⟨heq, ?_, ?_, ?_⟩ <;> rw [heq]
  · rw [div_mul_eq_mul_div, div_neg_iff]
    constructor
    · rintro (⟨h1, h2⟩ | ⟨h1, h2⟩)
      · linarith
      · have hq : (original_size : ℚ) < (new_size : ℚ) := by nlinarith
        exact_mod_cast hq
    · intro hlt
      right
      have hq : (original_size : ℚ) < (new_size : ℚ) := by exact_mod_cast hlt
      exact ⟨by nlinarith, ho⟩
  · rw [div_mul_eq_mul_div, div_eq_zero_iff, mul_eq_zero, sub_eq_zero]
    constructor
    · rintro ((h1 | h1) | h1)
      · exact_mod_cast h1
      · norm_num at h1
      · exact absurd h1 (ne_of_gt ho)
    · intro he
      exact Or.inl (Or.inl (by exact_mod_cast he))
  · rw [div_mul_eq_mul_div, div_pos_iff]
    constructor
    · rintro (⟨h1, h2⟩ | ⟨h1, h2⟩)
      · have hq : (new_size : ℚ) < (original_size : ℚ) := by nlinarith
        exact_mod_cast hq
      · linarith
    · intro hlt
      left
      have hq : (new_size : ℚ) < (original_size : ℚ) := by exact_mod_cast hlt
      exact ⟨by nlinarith, ho⟩

/-- C8, witness: a 100-byte input growing to 150 bytes reports a
negative (not clamped) reduction. -/
theorem compress_reports_true_delta_witness :
    reduction_percent 100 150
      = (((100 : Nat) : ℚ) - ((150 : Nat) : ℚ)) / ((100 : Nat) : ℚ) * 100 ∧
    (reduction_percent 100 150 < 0 ↔ (100 : Nat) < 150) ∧
    (reduction_percent 100 150 = 0 ↔ (100 : Nat) = 150) ∧
    (0 < reduction_percent 100 150 ↔ (150 : Nat) < 100) :=
  compress_reports_true_delta 100 150 (by decide)

/-- C10: the compress output is independent of the user-supplied
compression-level and image-quality settings: the save call receives
only the document and fixed options, so any two settings produce the
same output for the same input document. -/
theorem compress_output_independent_of_settings (doc : List Nat)
    (level1 quality1 level2 quality2 : Int) :
    compress_save doc level1 quality1 = compress_save doc level2 quality2 := rfl

end PdfOps
